import Mathlib

/-!
Shallow embedding of the sound-classifier-next inference-serving pipeline.

The repository has four Python source files; the request handlers embedded
here are:
  * `main_process_audio`        — `process_audio` in src/api/python/main.py
  * `route_process_audio`       — `process_audio` in src/app/api/route.py
  * `clapcap_process_audio`     — `process_audio` in src/api/python/streamlit_app.py
and the weight-acquisition functions:
  * `main_download_model`       — `download_model` in src/api/python/main.py
  * `route_download_model`      — `download_model` in src/app/api/route.py

External collaborators (the CLAP model, pydub's decoder, the network) are
modelled as oracle parameters: each handler takes the outcome the collaborator
would produce and returns the transport-level result together with an explicit
trace of its side effects (upload reads, scratch files created and unlinked,
model invocations with their parameters).
-/

namespace SoundClassifier

/-- A FastAPI/starlette HTTPException: status code plus detail string. -/
structure HTTPException where
  status_code : Nat
  detail : String
deriving Repr, DecidableEq

/-- `str()` of a starlette `HTTPException` as Python computes it: starlette
defines `__str__` as `f"{self.status_code}: {self.detail}"`.  (The code
constructs the exception with keyword arguments, so `BaseException.args` is
empty and the inherited args-tuple rendering never applies.) -/
def pyStrOfHTTPException (e : HTTPException) : String :=
  toString e.status_code ++ ": " ++ e.detail

/-- The Python value returned by the model's captioning call, as far as the
validation `not captions or not isinstance(captions, list) or not captions[0]`
can distinguish it: either not a list at all, or a list of strings. -/
inductive PyCaptions where
  /-- any non-list return value; it fails the validation whether it is truthy
  (`not isinstance(captions, list)` fires) or falsy (`not captions` fires),
  and short-circuiting prevents the `captions[0]` subscript from running -/
  | nonList : PyCaptions
  | list : List String → PyCaptions
deriving Repr, DecidableEq

/-- The validation `not captions or not isinstance(captions, list) or not
captions[0]` from both FastAPI handlers, true when the shape is rejected. -/
def captionsInvalid : PyCaptions → Bool
  | .nonList => true
  | .list [] => true
  | .list (x :: _) => x == ""

/-- `str(captions[0])` on a list value (only evaluated after validation, so
the list is non-empty and the head is a string already). -/
def pyFirst : PyCaptions → String
  | .list (x :: _) => x
  | _ => ""

/-- Outcome of invoking the model's captioning entry point. -/
inductive GenOutcome where
  /-- the underlying model raised; `msg` is `str(e)` -/
  | raises : String → GenOutcome
  /-- the call returned the given Python value -/
  | returns : PyCaptions → GenOutcome
deriving Repr, DecidableEq

/-- Outcome of `AudioSegment.from_file` followed by `export` (route variant). -/
inductive DecodeOutcome where
  | ok : DecodeOutcome
  /-- the decoder raised; `msg` is `str(e)` -/
  | raises : String → DecodeOutcome
deriving Repr, DecidableEq

/-- One invocation of the model, recording exactly the decoding parameters the
call site passes. -/
inductive CaptionCall where
  /-- `clap_model.generate_caption([path], resample=…, beam_size=…,
  entry_length=…, temperature=…)` -/
  | generate_caption (resample : Bool) (beam_size : Nat) (entry_length : Nat)
      (temperature : ℚ) : CaptionCall
  /-- `st.session_state.model.predict(temp_path)` — no decoding parameters,
  no resample request (src/api/python/streamlit_app.py line 81) -/
  | predict : CaptionCall
deriving Repr, DecidableEq

/-- The parameters hard-coded at the `generate_caption` call sites in
src/api/python/main.py (lines 157-163), src/app/api/route.py (lines 172-178)
and src/streamlit_app.py (lines 105-111 and 140-146):
`resample=True, beam_size=3, entry_length=67, temperature=0.01`. -/
def fixedGenCall : CaptionCall := .generate_caption true 3 67 (1 / 100)

/-- Python `str.startswith`: `pyStartswith s t` is `s.startswith(t)`. -/
def pyStartswith (s t : String) : Bool := t.toList.isPrefixOf s.toList

/-- Python `os.path.splitext` restricted to a bare filename (no directory
separators, which uploads' filenames are used as here): splits at the last
dot, except that a dot with only dots (or nothing) before it starts no
extension (`.bashrc` has none). -/
def pySplitext (p : String) : String × String :=
  let l := p.toList
  let extLen := (l.reverse.takeWhile (fun c => c ≠ '.')).length
  if extLen = l.length then (p, "")
  else
    let d := l.length - extLen - 1
    let root := l.take d
    if root.all (fun c => c = '.') then (p, "")
    else (⟨root⟩, ⟨l.drop d⟩)

/-- Python `str.lower` on the ASCII strings occurring as file extensions. -/
def pyLower (s : String) : String := ⟨s.toList.map Char.toLower⟩

/-- Side effects of one `process_audio` call in src/api/python/main.py. -/
structure MainTrace where
  /-- `await file.read()` was performed -/
  uploadRead : Bool
  /-- suffix of the scratch file created by `NamedTemporaryFile`, `none` if
  no scratch file was created -/
  tempSuffix : Option String
  /-- number of `os.unlink(temp_path)` calls performed -/
  tempUnlinks : Nat
  /-- model invocations, with the parameters passed -/
  calls : List CaptionCall
deriving Repr, DecidableEq

/-- The trace of a call that performed no audio work at all. -/
def MainTrace.empty : MainTrace := ⟨false, none, 0, []⟩

/-- Shallow embedding of `process_audio` in src/api/python/main.py
(lines 131-185).  `modelLoaded` is the truthiness of the global `clap_model`;
`filename` and `content_type` come from the upload; `gen` is what
`clap_model.generate_caption` does when invoked.  Returns the response
(`Except` error = raised `HTTPException`, ok = the `{"caption": …}` body)
with the effect trace.  Note the handler has no `finally`: the only
`os.unlink` is on the straight-line path after `generate_caption` returns. -/
def main_process_audio (modelLoaded : Bool) (filename content_type : String)
    (gen : GenOutcome) : Except HTTPException String × MainTrace :=
  if ¬ modelLoaded then
    (.error ⟨503, "Model not initialized. Please try again later."⟩, .empty)
  else if ¬ pyStartswith content_type "audio/" then
    -- raised before the temp file and before `await file.read()`;
    -- `except HTTPException: raise` re-raises it unchanged
    (.error ⟨400, "Invalid file type. Please upload an audio file."⟩, .empty)
  else
    -- NamedTemporaryFile(suffix=".wav", delete=False); content written
    match gen with
    | .raises msg =>
        -- generic `except Exception` wraps it; the unlink at line 166 is
        -- never reached, so the scratch file is not deleted
        (.error ⟨500, "Error processing audio: " ++ msg⟩,
         ⟨true, some ".wav", 0, [fixedGenCall]⟩)
    | .returns cs =>
        -- os.unlink(temp_path) at line 166 runs before validation
        if captionsInvalid cs then
          -- `except HTTPException: raise` re-raises it unchanged
          (.error ⟨500, "Failed to generate caption. Please try again."⟩,
           ⟨true, some ".wav", 1, [fixedGenCall]⟩)
        else
          (.ok (pyFirst cs), ⟨true, some ".wav", 1, [fixedGenCall]⟩)

/-- Side effects of one `process_audio` call in src/app/api/route.py. -/
structure RouteTrace where
  /-- `shutil.copyfileobj(audio_file.file, buffer)` was performed -/
  uploadRead : Bool
  /-- suffix of the scratch file created by `NamedTemporaryFile`, `none` if
  no scratch file was created -/
  tempSuffix : Option String
  /-- number of `os.unlink` calls on the raw-upload scratch file -/
  tempUnlinks : Nat
  /-- `AudioSegment.from_file` was invoked -/
  decodeAttempted : Bool
  /-- the converted `.wav` scratch file was created by `audio.export` -/
  wavCreated : Bool
  /-- number of `os.unlink` calls on the converted `.wav` scratch file -/
  wavUnlinks : Nat
  /-- model invocations, with the parameters passed -/
  calls : List CaptionCall
deriving Repr, DecidableEq

/-- The trace of a call that performed no audio work at all. -/
def RouteTrace.empty : RouteTrace := ⟨false, none, 0, false, false, 0, []⟩

/-- Success body of the route handler: `{"caption": …, "industry": …,
"status": "success"}`. -/
structure RouteResponse where
  caption : String
  industry : Option String
  status : String
deriving Repr, DecidableEq

/-- Shallow embedding of `process_audio` in src/app/api/route.py
(lines 135-206).  The handler never inspects `content_type` (it only logs
it); the raw upload goes to a temp file whose suffix is the lower-cased
`os.path.splitext` extension of `filename`; `decode` is the outcome of the
pydub decode/convert, `gen` of `clap_model.generate_caption`.  A raised
`HTTPException` is itself an `Exception`, so the malformed-output 500 is
caught by `except Exception` and re-wrapped; the `finally` block unlinks
whichever scratch files still exist. -/
def route_process_audio (modelLoaded : Bool) (filename content_type : String)
    (industry : Option String) (decode : DecodeOutcome) (gen : GenOutcome) :
    Except HTTPException RouteResponse × RouteTrace :=
  if ¬ modelLoaded then
    (.error ⟨503, "Model not initialized. Please try again later."⟩, .empty)
  else
    let ext := pyLower (pySplitext filename).2
    -- temp file created with suffix `ext`; upload copied into it
    match decode with
    | .raises msg =>
        -- except wraps into 500; finally: temp_path still set and the file
        -- exists → one unlink; wav_path is still None
        (.error ⟨500, "Error processing audio: " ++ msg⟩,
         ⟨true, some ext, 1, true, false, 0, []⟩)
    | .ok =>
        -- wav file exported, then os.unlink(temp_path); temp_path = None,
        -- so the finally block skips the raw temp from here on
        match gen with
        | .raises msg =>
            (.error ⟨500, "Error processing audio: " ++ msg⟩,
             ⟨true, some ext, 1, true, true, 1, [fixedGenCall]⟩)
        | .returns cs =>
            if captionsInvalid cs then
              -- HTTPException(500, "Failed to generate caption. …") is
              -- caught by `except Exception as e` and re-wrapped with
              -- detail "Error processing audio: " ++ str(e)
              (.error ⟨500, "Error processing audio: " ++
                  pyStrOfHTTPException
                    ⟨500, "Failed to generate caption. Please try again."⟩⟩,
               ⟨true, some ext, 1, true, true, 1, [fixedGenCall]⟩)
            else
              (.ok ⟨pyFirst cs, industry, "success"⟩,
               ⟨true, some ext, 1, true, true, 1, [fixedGenCall]⟩)

/-- Outcome of `st.session_state.model.predict(temp_path)` in
src/api/python/streamlit_app.py. -/
inductive PredictOutcome where
  | raises : String → PredictOutcome
  | returns : String → PredictOutcome
deriving Repr, DecidableEq

/-- Shallow embedding of `process_audio` in src/api/python/streamlit_app.py
(lines 74-87): writes the upload to a temp file and invokes the model with
`model.predict(temp_path)` — no decoding parameters and no resample request —
returning the caption, or `none` after showing an error.  The returned list
records the model invocations. -/
def clapcap_process_audio (p : PredictOutcome) :
    Option String × List CaptionCall :=
  match p with
  | .raises _ => (none, [.predict])
  | .returns c => (some c, [.predict])

/-- The fixed artifact URL,
`MODEL_URL` in src/app/api/route.py line 34 and the literal that appears in
src/api/python/main.py line 21. -/
def MODEL_URL : String :=
  "https://github.com/MadeByKit/sound-classifier-next/releases/download/v1.0.0/clapcap_weights_2023.pth"

/-- Result of a `download_model` run. -/
inductive DlResult where
  /-- returned normally -/
  | done : DlResult
  /-- an exception escaped; `msg` describes it -/
  | raised : String → DlResult
deriving Repr, DecidableEq

/-- Shallow embedding of `download_model` in src/api/python/main.py
(lines 17-25).  `pathExists` is `Path('clapcap_weights_2023.pth').exists()`;
`env` is the process environment read by `os.getenv`; `fetchErr` is `none`
when a performed HTTP GET succeeds, and the error text when it raises.
The code passes the artifact URL as the NAME to `os.getenv`, so `model_url`
is whatever environment variable is literally named by the URL — normally
absent, making `requests.get(None)` raise `MissingSchema`.  Returns the run
result together with the list of arguments passed to `requests.get`. -/
def main_download_model (pathExists : Bool) (env : String → Option String)
    (fetchErr : Option String) : DlResult × List (Option String) :=
  if pathExists then (.done, [])
  else
    match env MODEL_URL with
    | none => (.raised "MissingSchema: Invalid URL 'None'", [none])
    | some u =>
        match fetchErr with
        | none => (.done, [some u])
        | some msg => (.raised msg, [some u])

/-- Shallow embedding of `download_model` in src/app/api/route.py
(lines 37-51): skipped entirely when the weight file exists; otherwise a
streaming GET of `MODEL_URL` is written to `MODEL_PATH`, and any failure is
re-raised as `RuntimeError("Failed to download model: …")`. -/
def route_download_model (pathExists : Bool) (fetchErr : Option String) :
    DlResult × List (Option String) :=
  if pathExists then (.done, [])
  else
    match fetchErr with
    | none => (.done, [some MODEL_URL])
    | some msg =>
        (.raised ("Failed to download model: " ++ msg), [some MODEL_URL])

/-! ### Helper lemmas -/

/-- Detail strings the handler raises itself never coincide with the generic
`"Error processing audio: …"` wrap, whatever the wrapped message is:
the bad-request detail starts with a different character. -/
theorem invalid_type_detail_ne_wrap (msg : String) :
    "Invalid file type. Please upload an audio file." ≠
      "Error processing audio: " ++ msg := by
  intro h
  have h2 : (some 'I' : Option Char) = some 'E' :=
    congrArg (fun s => s.data.head?) h
  simp at h2

/-- The malformed-output detail likewise starts with a different character
than the generic wrap. -/
theorem malformed_detail_ne_wrap (msg : String) :
    "Failed to generate caption. Please try again." ≠
      "Error processing audio: " ++ msg := by
  intro h
  have h2 : (some 'F' : Option Char) = some 'E' :=
    congrArg (fun s => s.data.head?) h
  simp at h2

/-! ### Claims -/

/-- C1 counterexample: in the src/api/python/main.py variant, when the model
is loaded, the content type is audio and `generate_caption` raises, the
handler creates a scratch file (suffix ".wav") and never unlinks it — the
temporary file remains on disk after the call, refuting exactly-once cleanup
on every exit path. -/
theorem c1_cleanup_counterexample :
    (main_process_audio true "clip.wav" "audio/wav"
        (.raises "inference failed")).2.tempSuffix = some ".wav" ∧
    (main_process_audio true "clip.wav" "audio/wav"
        (.raises "inference failed")).2.tempUnlinks = 0 :=
  ⟨rfl, rfl⟩

/-- C1 amended: the route variant deletes each scratch file it created
exactly once on every exit path (raw temp and converted wav alike); the main
variant unlinks its scratch file exactly once whenever `generate_caption`
returns (success or malformed output), but never unlinks it when
`generate_caption` raises. -/
theorem c1_cleanup_amended :
    (∀ (loaded : Bool) (fn ct : String) (ind : Option String)
        (dec : DecodeOutcome) (gen : GenOutcome),
      ((route_process_audio loaded fn ct ind dec gen).2.tempUnlinks =
        cond (route_process_audio loaded fn ct ind dec gen).2.tempSuffix.isSome 1 0) ∧
      ((route_process_audio loaded fn ct ind dec gen).2.wavUnlinks =
        cond (route_process_audio loaded fn ct ind dec gen).2.wavCreated 1 0)) ∧
    (∀ (loaded : Bool) (fn ct : String) (cs : PyCaptions),
      (main_process_audio loaded fn ct (.returns cs)).2.tempUnlinks =
        cond (main_process_audio loaded fn ct (.returns cs)).2.tempSuffix.isSome 1 0) ∧
    (∀ (loaded : Bool) (fn ct msg : String),
      (main_process_audio loaded fn ct (.raises msg)).2.tempUnlinks = 0) := by
  refine ⟨fun loaded fn ct ind dec gen => ?_, fun loaded fn ct cs => ?_,
    fun loaded fn ct msg => ?_⟩
  · cases loaded <;> cases dec <;> cases gen with
    | _ => first
      | exact ⟨rfl, rfl⟩
      | rename_i cs
        cases h : captionsInvalid cs <;>
          simp [route_process_audio, RouteTrace.empty, h]
  · cases loaded
    · rfl
    · by_cases hc : pyStartswith ct "audio/" <;>
        cases h : captionsInvalid cs <;>
          simp [main_process_audio, MainTrace.empty, h, hc]
  · cases loaded
    · rfl
    · by_cases hc : pyStartswith ct "audio/" <;>
        simp [main_process_audio, MainTrace.empty, hc]

/-- C2: when the global model is `None`, both FastAPI handlers return the
503 service-unavailable error immediately with an empty effect trace — the
upload is not read, no scratch file is created, no decode and no model
invocation happens. -/
theorem c2_readiness_gate (fn ct : String) (ind : Option String)
    (dec : DecodeOutcome) (gen : GenOutcome) :
    main_process_audio false fn ct gen =
      (.error ⟨503, "Model not initialized. Please try again later."⟩,
       .empty) ∧
    route_process_audio false fn ct ind dec gen =
      (.error ⟨503, "Model not initialized. Please try again later."⟩,
       .empty) :=
  ⟨rfl, rfl⟩

/-- C3 counterexample: the src/app/api/route.py variant never inspects the
declared content type. For a `text/plain` upload the decoder IS invoked, and
the failure surfaces as 500, not as the claimed 400 bad-request. -/
theorem c3_content_type_counterexample :
    (route_process_audio true "notes.txt" "text/plain" none
        (.raises "decode error") (.returns (.list ["x"]))).2.decodeAttempted
      = true ∧
    (route_process_audio true "notes.txt" "text/plain" none
        (.raises "decode error") (.returns (.list ["x"]))).1 =
      .error ⟨500, "Error processing audio: decode error"⟩ :=
  ⟨rfl, rfl⟩

/-- C3 amended: only the src/api/python/main.py variant rejects a non-audio
content type with the 400 bad-request before any audio work (empty trace: no
read, no scratch file, no model call); the route variant ignores the declared
content type and always proceeds to the decode once the model is loaded. -/
theorem c3_content_type_amended :
    (∀ (fn ct : String) (gen : GenOutcome),
      pyStartswith ct "audio/" = false →
      main_process_audio true fn ct gen =
        (.error ⟨400, "Invalid file type. Please upload an audio file."⟩,
         .empty)) ∧
    (∀ (fn ct : String) (ind : Option String) (dec : DecodeOutcome)
        (gen : GenOutcome),
      (route_process_audio true fn ct ind dec gen).2.decodeAttempted = true) := by
  refine ⟨fun fn ct gen h => ?_, fun fn ct ind dec gen => ?_⟩
  · simp [main_process_audio, h]
  · cases dec <;> cases gen with
    | _ => first
      | rfl
      | rename_i cs
        cases h : captionsInvalid cs <;> simp [route_process_audio, h]

/-- C3 amended, witness: a concrete `text/plain` upload against the main
variant is rejected with the 400 error and an empty trace. -/
theorem c3_content_type_amended_witness :
    pyStartswith "text/plain" "audio/" = false ∧
    main_process_audio true "notes.txt" "text/plain"
        (.returns (.list ["x"])) =
      (.error ⟨400, "Invalid file type. Please upload an audio file."⟩,
       .empty) :=
  ⟨by rfl, c3_content_type_amended.1 "notes.txt" "text/plain"
    (.returns (.list ["x"])) (by rfl)⟩

/-- C5 counterexample: in the route variant, malformed model output does not
reach the caller as the 500 `"Failed to generate caption. Please try
again."` error: the raised HTTPException is caught by the generic
`except Exception` clause and re-wrapped into the `"Error processing
audio: …"` detail; moreover a model exception with a matching message
produces the very same response, so the two failures are not distinct
there. -/
theorem c5_validation_counterexample :
    (route_process_audio true "clip.wav" "audio/wav" none .ok
        (.returns (.list []))).1 =
      .error ⟨500, "Error processing audio: 500: Failed to generate caption. Please try again."⟩ ∧
    "Error processing audio: 500: Failed to generate caption. Please try again." ≠
      "Failed to generate caption. Please try again." ∧
    (route_process_audio true "clip.wav" "audio/wav" none .ok
        (.raises "500: Failed to generate caption. Please try again.")).1 =
      (route_process_audio true "clip.wav" "audio/wav" none .ok
        (.returns (.list []))).1 :=
  ⟨rfl, by decide, rfl⟩

/-- C5 amended: both variants validate the result shape (non-list, empty
list, or empty first element fails) and raise
HTTPException(500, "Failed to generate caption. Please try again.").  In the
main variant this error reaches the caller unchanged and can never coincide
with the `"Error processing audio: …"` wrap used when the underlying model
raises; in the route variant it is itself caught by `except Exception` and
re-wrapped with the generic detail. -/
theorem c5_validation_amended :
    (∀ (fn ct : String) (cs : PyCaptions),
      pyStartswith ct "audio/" = true → captionsInvalid cs = true →
      (main_process_audio true fn ct (.returns cs)).1 =
        .error ⟨500, "Failed to generate caption. Please try again."⟩) ∧
    (∀ (fn ct msg : String),
      pyStartswith ct "audio/" = true →
      (main_process_audio true fn ct (.raises msg)).1 =
        .error ⟨500, "Error processing audio: " ++ msg⟩) ∧
    (∀ msg : String,
      "Failed to generate caption. Please try again." ≠
        "Error processing audio: " ++ msg) ∧
    (∀ (fn ct : String) (ind : Option String) (cs : PyCaptions),
      captionsInvalid cs = true →
      (route_process_audio true fn ct ind .ok (.returns cs)).1 =
        .error ⟨500, "Error processing audio: 500: Failed to generate caption. Please try again."⟩) := by
  refine ⟨fun fn ct cs h hc => ?_, fun fn ct msg h => ?_,
    malformed_detail_ne_wrap, fun fn ct ind cs hc => ?_⟩
  · simp [main_process_audio, h, hc]
  · simp [main_process_audio, h]
  · simp only [route_process_audio, hc]
    rfl

/-- C5 amended, witness: concrete malformed output (empty list) through both
variants. -/
theorem c5_validation_amended_witness :
    pyStartswith "audio/wav" "audio/" = true ∧
    captionsInvalid (.list []) = true ∧
    (main_process_audio true "clip.wav" "audio/wav"
        (.returns (.list []))).1 =
      .error ⟨500, "Failed to generate caption. Please try again."⟩ ∧
    (main_process_audio true "clip.wav" "audio/wav" (.raises "cuda out of memory")).1 =
      .error ⟨500, "Error processing audio: cuda out of memory"⟩ ∧
    (route_process_audio true "clip.wav" "audio/wav" none .ok
        (.returns (.list []))).1 =
      .error ⟨500, "Error processing audio: 500: Failed to generate caption. Please try again."⟩ :=
  ⟨by rfl, by rfl,
   c5_validation_amended.1 "clip.wav" "audio/wav" (.list []) (by rfl) (by rfl),
   c5_validation_amended.2.1 "clip.wav" "audio/wav" "cuda out of memory" (by rfl),
   c5_validation_amended.2.2.2 "clip.wav" "audio/wav" none (.list []) (by rfl)⟩

/-- C6 counterexample: the src/api/python/streamlit_app.py variant invokes
the model through `model.predict(temp_path)` — an invocation carrying none
of the fixed decoding parameters and no resample request. -/
theorem c6_fixed_params_counterexample :
    (clapcap_process_audio (.returns "a dog barks")).2 = [.predict] ∧
    CaptionCall.predict ≠ fixedGenCall :=
  ⟨rfl, by simp [fixedGenCall]⟩

/-- C6 amended: every `generate_caption` invocation performed by the main
and route handlers uses exactly `resample=True, beam_size=3, entry_length=67,
temperature=0.01` (their call lists are empty or the single fixed call); the
CLAPCap streamlit variant instead calls `predict` with no decoding
parameters at all. -/
theorem c6_fixed_params_amended :
    (∀ (loaded : Bool) (fn ct : String) (gen : GenOutcome),
      (main_process_audio loaded fn ct gen).2.calls = [] ∨
      (main_process_audio loaded fn ct gen).2.calls = [fixedGenCall]) ∧
    (∀ (loaded : Bool) (fn ct : String) (ind : Option String)
        (dec : DecodeOutcome) (gen : GenOutcome),
      (route_process_audio loaded fn ct ind dec gen).2.calls = [] ∨
      (route_process_audio loaded fn ct ind dec gen).2.calls = [fixedGenCall]) ∧
    (∀ p : PredictOutcome,
      (clapcap_process_audio p).2 = [CaptionCall.predict]) ∧
    fixedGenCall = .generate_caption true 3 67 (1 / 100) := by
  refine ⟨fun loaded fn ct gen => ?_, fun loaded fn ct ind dec gen => ?_,
    fun p => ?_, rfl⟩
  · cases loaded
    · exact .inl rfl
    · by_cases hc : pyStartswith ct "audio/"
      · cases gen with
        | raises msg => exact .inr (by simp [main_process_audio, hc])
        | returns cs =>
          cases h : captionsInvalid cs <;>
            exact .inr (by simp [main_process_audio, hc, h])
      · exact .inl (by simp [main_process_audio, hc, MainTrace.empty])
  · cases loaded
    · exact .inl rfl
    · cases dec with
      | raises msg => exact .inl rfl
      | ok =>
        cases gen with
        | raises msg => exact .inr rfl
        | returns cs =>
          cases h : captionsInvalid cs <;>
            exact .inr (by simp [route_process_audio, h])
  · cases p <;> rfl

/-- C7 counterexample: the src/api/python/main.py variant stores an uploaded
`song.mp3` in a scratch file with suffix `".wav"`, not the file's original
`".mp3"` extension. -/
theorem c7_suffix_counterexample :
    (pySplitext "song.mp3").2 = ".mp3" ∧
    (main_process_audio true "song.mp3" "audio/mpeg"
        (.returns (.list ["x"]))).2.tempSuffix = some ".wav" ∧
    (".wav" : String) ≠ ".mp3" :=
  ⟨rfl, rfl, by decide⟩

/-- C7 amended: the route variant writes the raw upload to a scratch file
whose suffix is the lower-cased `os.path.splitext` extension of the uploaded
filename (preserving the original extension for container detection); the
main variant always uses the fixed suffix `".wav"` regardless of the
original extension. -/
theorem c7_suffix_amended :
    (∀ (fn ct : String) (ind : Option String) (dec : DecodeOutcome)
        (gen : GenOutcome),
      (route_process_audio true fn ct ind dec gen).2.tempSuffix =
        some (pyLower (pySplitext fn).2)) ∧
    (∀ (fn ct : String) (gen : GenOutcome),
      (main_process_audio true fn ct gen).2.tempSuffix = none ∨
      (main_process_audio true fn ct gen).2.tempSuffix = some ".wav") := by
  refine ⟨fun fn ct ind dec gen => ?_, fun fn ct gen => ?_⟩
  · cases dec <;> cases gen with
    | _ => first
      | rfl
      | rename_i cs
        cases h : captionsInvalid cs <;> simp [route_process_audio, h]
  · by_cases hc : pyStartswith ct "audio/"
    · cases gen with
      | raises msg => exact .inr (by simp [main_process_audio, hc])
      | returns cs =>
        cases h : captionsInvalid cs <;>
          exact .inr (by simp [main_process_audio, hc, h])
    · exact .inl (by simp [main_process_audio, hc, MainTrace.empty])

/-- C8: evaluating both `download_model` embeddings.  In the main variant
with the weight file absent and no environment variable literally named by
the artifact URL (the normal situation), `requests.get` receives `None` and
raises — the fixed URL is never fetched.  The skip-when-present half holds
in both variants, and the route variant does fetch the fixed URL when the
file is missing. -/
theorem c8_download_model_bug :
    main_download_model false (fun _ => none) none =
      (.raised "MissingSchema: Invalid URL 'None'", [none]) ∧
    (∀ (env : String → Option String) (fe : Option String),
      main_download_model true env fe = (.done, [])) ∧
    route_download_model false none = (.done, [some MODEL_URL]) ∧
    (∀ fe : Option String, route_download_model true fe = (.done, [])) :=
  ⟨rfl, fun env fe => rfl, rfl, fun fe => rfl⟩

/-- C9: on every successful route-variant request (model loaded, decode ok,
valid model output) the response carries the caller-supplied `industry` tag
unchanged, alongside the generated caption and the "success" status. -/
theorem c9_tag_passthrough (fn ct : String) (ind : Option String)
    (cs : PyCaptions) (h : captionsInvalid cs = false) :
    (route_process_audio true fn ct ind .ok (.returns cs)).1 =
      .ok ⟨pyFirst cs, ind, "success"⟩ := by
  simp [route_process_audio, h]

/-- C9 witness: a concrete successful request with tag "pets" returns the
tag unchanged. -/
theorem c9_tag_passthrough_witness :
    captionsInvalid (.list ["a dog barks"]) = false ∧
    (route_process_audio true "clip.wav" "audio/wav" (some "pets") .ok
        (.returns (.list ["a dog barks"]))).1 =
      .ok ⟨"a dog barks", some "pets", "success"⟩ :=
  ⟨by rfl, c9_tag_passthrough "clip.wav" "audio/wav" (some "pets")
    (.list ["a dog barks"]) (by rfl)⟩

/-- C10: in the main variant, an HTTPException raised inside the handler
body propagates with its original status code and detail — the 400 for a
non-audio content type and the 500 for malformed model output come through
verbatim — while the generic 500 wrap applies exactly to non-HTTPException
faults; the body-raised details can never coincide with any wrapped
detail. -/
theorem c10_http_exception_propagation :
    (∀ (fn ct : String) (gen : GenOutcome),
      pyStartswith ct "audio/" = false →
      (main_process_audio true fn ct gen).1 =
        .error ⟨400, "Invalid file type. Please upload an audio file."⟩) ∧
    (∀ (fn ct : String) (cs : PyCaptions),
      pyStartswith ct "audio/" = true → captionsInvalid cs = true →
      (main_process_audio true fn ct (.returns cs)).1 =
        .error ⟨500, "Failed to generate caption. Please try again."⟩) ∧
    (∀ (fn ct msg : String),
      pyStartswith ct "audio/" = true →
      (main_process_audio true fn ct (.raises msg)).1 =
        .error ⟨500, "Error processing audio: " ++ msg⟩) ∧
    (∀ msg : String,
      "Invalid file type. Please upload an audio file." ≠
          "Error processing audio: " ++ msg ∧
      "Failed to generate caption. Please try again." ≠
          "Error processing audio: " ++ msg) := by
  refine ⟨fun fn ct gen h => ?_, fun fn ct cs h hc => ?_,
    fun fn ct msg h => ?_,
    fun msg => ⟨invalid_type_detail_ne_wrap msg, malformed_detail_ne_wrap msg⟩⟩
  · simp [main_process_audio, h]
  · simp [main_process_audio, h, hc]
  · simp [main_process_audio, h]

/-- C10 witness: concrete 400 and malformed-500 responses from the main
variant, with their exact original details. -/
theorem c10_http_exception_propagation_witness :
    pyStartswith "text/plain" "audio/" = false ∧
    (main_process_audio true "doc.txt" "text/plain"
        (.returns (.list ["x"]))).1 =
      .error ⟨400, "Invalid file type. Please upload an audio file."⟩ ∧
    pyStartswith "audio/mpeg" "audio/" = true ∧
    captionsInvalid .nonList = true ∧
    (main_process_audio true "song.mp3" "audio/mpeg"
        (.returns .nonList)).1 =
      .error ⟨500, "Failed to generate caption. Please try again."⟩ :=
  ⟨by rfl,
   c10_http_exception_propagation.1 "doc.txt" "text/plain"
     (.returns (.list ["x"])) (by rfl),
   by rfl, by rfl,
   c10_http_exception_propagation.2.1 "song.mp3" "audio/mpeg" .nonList
     (by rfl) (by rfl)⟩

end SoundClassifier
